import Mathlib

/-!
Shallow embedding of `examples/tutorial/03_Alignment_and_Preprocessing.ipynb`.

The notebook manipulates labelled 2-d raster arrays (xarray `DataArray`s) whose
coordinates and cell values are modelled here as exact rationals.  A missing or
non-finite cell value (NaN produced by division by zero, or an out-of-range
interpolation target) is modelled as `none`.
-/

/-- Elementwise division as performed by the array library: dividing by zero
yields a non-finite, non-numeric result (NaN or an infinity) instead of raising
an exception; such results are modelled as `none`. -/
def fdiv (a b : ℚ) : Option ℚ :=
  if b = 0 then none else some (a / b)

/-- A labelled 2-d raster: lists of x and y coordinate labels together with the
cell values, keyed by coordinate label.  `none` stands for a missing / NaN
cell. -/
structure DataArray where
  xs : List ℚ
  ys : List ℚ
  vals : ℚ → ℚ → Option ℚ

/-- Shape of an array, in the (y, x) order the library reports. -/
def DataArray.shape (da : DataArray) : ℕ × ℕ :=
  (da.ys.length, da.xs.length)

/-- Coordinate alignment used by binary operations: only labels present in both
operands survive (this is why the naive difference of the two differently
gridded NDVI rasters in the notebook came out much smaller than either input). -/
def alignCoords (u v : List ℚ) : List ℚ :=
  u.filter (fun c => decide (c ∈ v))

/-- Label-aligned elementwise combination of two rasters. -/
def DataArray.binApply (op : ℚ → ℚ → Option ℚ) (a b : DataArray) : DataArray where
  xs := alignCoords a.xs b.xs
  ys := alignCoords a.ys b.ys
  vals := fun cx cy => do
    let va ← a.vals cx cy
    let vb ← b.vals cx cy
    op va vb

/-- Elementwise subtraction. -/
def DataArray.sub (a b : DataArray) : DataArray :=
  DataArray.binApply (fun p q => some (p - q)) a b

/-- Elementwise addition. -/
def DataArray.add (a b : DataArray) : DataArray :=
  DataArray.binApply (fun p q => some (p + q)) a b

/-- Elementwise division (NaN on a zero divisor, see `fdiv`). -/
def DataArray.div (a b : DataArray) : DataArray :=
  DataArray.binApply fdiv a b

/-- A multi-band raster such as `landsat_5_da` / `landsat_8_da`: band number to
cell values over shared x/y coordinates. -/
structure MultiBandArray where
  xs : List ℚ
  ys : List ℚ
  bvals : ℕ → ℚ → ℚ → Option ℚ

/-- Band selection, `da.sel(band=b)`. -/
def MultiBandArray.sel (da : MultiBandArray) (b : ℕ) : DataArray where
  xs := da.xs
  ys := da.ys
  vals := da.bvals b

/-- Search for the consecutive pair of source coordinates bracketing a target
coordinate (the source coordinate lists are monotone). -/
def findBracket : List ℚ → ℚ → Option (ℚ × ℚ)
  | c0 :: c1 :: rest, t =>
      if c0 ≤ t ∧ t ≤ c1 then some (c0, c1) else findBracket (c1 :: rest) t
  | _, _ => none

/-- One-dimensional linear interpolation between two known points. -/
def lerp (c0 c1 t v0 v1 : ℚ) : ℚ :=
  v0 + (v1 - v0) * (t - c0) / (c1 - c0)

/-- Linear interpolation of a raster onto new x and y coordinates,
`da.interp(x=nxs, y=nys)`: each target cell is bilinearly interpolated from the
four bracketing source cells, and targets outside the source extent (or with a
missing source neighbour) become NaN. -/
def DataArray.interp (da : DataArray) (nxs nys : List ℚ) : DataArray where
  xs := nxs
  ys := nys
  vals := fun cx cy =>
    match findBracket da.xs cx, findBracket da.ys cy with
    | some (x0, x1), some (y0, y1) => do
        let v00 ← da.vals x0 y0
        let v10 ← da.vals x1 y0
        let v01 ← da.vals x0 y1
        let v11 ← da.vals x1 y1
        some (lerp y0 y1 cy (lerp x0 x1 cx v00 v10) (lerp x0 x1 cx v01 v11))
    | _, _ => none

/-- Ordered union of coordinate labels, as used when several arrays are grouped
into a dataset. -/
def mergeCoords (u v : List ℚ) : List ℚ :=
  u ++ v.filter (fun c => decide (c ∉ u))

/-- A named group of rasters over shared coordinates (an `xarray.Dataset`). -/
structure Dataset where
  xs : List ℚ
  ys : List ℚ
  vars : List (String × (ℚ → ℚ → Option ℚ))

/-- Dataset construction from two named arrays,
`xr.Dataset({n1: a, n2: b})`. -/
def Dataset.ofTwo (n1 : String) (a : DataArray) (n2 : String) (b : DataArray) : Dataset where
  xs := mergeCoords a.xs b.xs
  ys := mergeCoords a.ys b.ys
  vars := [(n1, a.vals), (n2, b.vals)]

/-- Variable access `ds[name]`: the stored values under the dataset's shared
coordinates (an unknown name has no values anywhere). -/
def Dataset.getVar (ds : Dataset) (name : String) : DataArray where
  xs := ds.xs
  ys := ds.ys
  vals := fun cx cy =>
    match ds.vars.lookup name with
    | some f => f cx cy
    | none => none

/-- Model of `np.arange(start, stop, step)` over exact rationals: the regular
sequence `start, start + step, ...` with `ceil((stop - start) / step)`
elements. -/
def arange (start stop step : ℚ) : List ℚ :=
  (List.range (⌈(stop - start) / step⌉).toNat).map (fun (i : ℕ) => start + (i : ℚ) * step)

namespace NB

/-- Notebook value `buffer = 1.5e4`. -/
def buffer : ℚ := 1.5e4

/-- Notebook value `xmin = x_center - buffer`. -/
def xmin (x_center : ℚ) : ℚ := x_center - buffer

/-- Notebook value `xmax = x_center + buffer`. -/
def xmax (x_center : ℚ) : ℚ := x_center + buffer

/-- Notebook value `ymin = y_center - buffer`. -/
def ymin (y_center : ℚ) : ℚ := y_center - buffer

/-- Notebook value `ymax = y_center + buffer`. -/
def ymax (y_center : ℚ) : ℚ := y_center + buffer

/-- Notebook value `bounding_box`: a single polygon listed corner by corner,
`[[[xmin, ymin], [xmin, ymax], [xmax, ymax], [xmax, ymin]]]` (each two-element
coordinate list is rendered as a pair). -/
def bounding_box (x_center y_center : ℚ) : List (List (ℚ × ℚ)) :=
  [[(xmin x_center, ymin y_center), (xmin x_center, ymax y_center),
    (xmax x_center, ymax y_center), (xmax x_center, ymin y_center)]]

/-- Notebook value `res = 200`. -/
def res : ℚ := 200

/-- Notebook value `x = np.arange(xmin, xmax, res)`. -/
def x (x_center : ℚ) : List ℚ := arange (xmin x_center) (xmax x_center) res

/-- Notebook value `y = np.arange(ymin, ymax, res)`. -/
def y (y_center : ℚ) : List ℚ := arange (ymin y_center) (ymax y_center) res

/-- Notebook value `res_1000 = 1e3`. -/
def res_1000 : ℚ := 1e3

/-- Notebook value `x_1000 = np.arange(xmin, xmax, res)` — note the code reuses
`res`, not `res_1000`. -/
def x_1000 (x_center : ℚ) : List ℚ := arange (xmin x_center) (xmax x_center) res

/-- Notebook value `y_1000 = np.arange(ymin, ymax, res)` — note the code reuses
`res`, not `res_1000`. -/
def y_1000 (y_center : ℚ) : List ℚ := arange (ymin y_center) (ymax y_center) res

/-- Notebook value
`NDVI_1988 = (landsat_5_da.sel(band=4) - landsat_5_da.sel(band=3)) / (landsat_5_da.sel(band=4) + landsat_5_da.sel(band=3))`. -/
def NDVI_1988 (landsat_5_da : MultiBandArray) : DataArray :=
  ((landsat_5_da.sel 4).sub (landsat_5_da.sel 3)).div
    ((landsat_5_da.sel 4).add (landsat_5_da.sel 3))

/-- Notebook value
`NDVI_2017 = (landsat_8_da.sel(band=5) - landsat_8_da.sel(band=4)) / (landsat_8_da.sel(band=5) + landsat_8_da.sel(band=4))`. -/
def NDVI_2017 (landsat_8_da : MultiBandArray) : DataArray :=
  ((landsat_8_da.sel 5).sub (landsat_8_da.sel 4)).div
    ((landsat_8_da.sel 5).add (landsat_8_da.sel 4))

/-- Notebook value `NDVI_1988_regridded = NDVI_1988.interp(x=x, y=y)`. -/
def NDVI_1988_regridded (landsat_5_da : MultiBandArray) (x_center y_center : ℚ) : DataArray :=
  (NDVI_1988 landsat_5_da).interp (x x_center) (y y_center)

/-- Notebook value `NDVI_2017_regridded = NDVI_2017.interp(x=x, y=y)`. -/
def NDVI_2017_regridded (landsat_8_da : MultiBandArray) (x_center y_center : ℚ) : DataArray :=
  (NDVI_2017 landsat_8_da).interp (x x_center) (y y_center)

/-- Notebook value
`ds_regridded = xr.Dataset({'NDVI_1988': NDVI_1988_regridded, 'NDVI_2017': NDVI_2017_regridded})`. -/
def ds_regridded (landsat_5_da landsat_8_da : MultiBandArray) (x_center y_center : ℚ) : Dataset :=
  Dataset.ofTwo "NDVI_1988" (NDVI_1988_regridded landsat_5_da x_center y_center)
    "NDVI_2017" (NDVI_2017_regridded landsat_8_da x_center y_center)

/-- Notebook value
`diff_regridded = ds_regridded['NDVI_2017'] - ds_regridded['NDVI_1988']`. -/
def diff_regridded (landsat_5_da landsat_8_da : MultiBandArray) (x_center y_center : ℚ) : DataArray :=
  ((ds_regridded landsat_5_da landsat_8_da x_center y_center).getVar "NDVI_2017").sub
    ((ds_regridded landsat_5_da landsat_8_da x_center y_center).getVar "NDVI_1988")

end NB

/-- Reference NDVI definition, modelled from the spec's words: the Normalized
Difference Vegetation Index is the per-pixel band-arithmetic quantity
`(NIR - Red) / (NIR + Red)`. -/
def ndviSpec (nir red : ℚ) : Option ℚ :=
  fdiv (nir - red) (nir + red)

/-!
Statement-level embedding of the notebook's code cells.  Each cell is a short
run of Python statements; the grammar below covers the constructs the notebook
uses (imports, assignments, expression statements) together with the constructs
Python offers but the notebook never uses (attribute assignment, branching,
loops, try/except, with-blocks), so that their absence is a checkable fact
about the transcription.  Keyword arguments are transcribed positionally.
-/

mutual

/-- A Python expression as it occurs in the notebook's cells. -/
inductive PExpr where
  | num (q : ℚ)
  | strLit (s : String)
  | var (name : String)
  | call (fn : String) (args : PExprList)
  | attr (recv : PExpr) (field : String)
  | method (recv : PExpr) (field : String) (args : PExprList)
  | binop (op : String) (lhs rhs : PExpr)
  | getitem (recv : PExpr) (key : PExpr)
  | sliceUpto (recv : PExpr) (stop : ℤ)
  | listLit (elems : PExprList)
  | tup (elems : PExprList)
  | dict (entries : PExprList)

/-- A list of expressions (argument or element lists). -/
inductive PExprList where
  | nil
  | cons (e : PExpr) (rest : PExprList)

end

/-- Conversion from a Lean list for readable transcription. -/
def PExprList.ofList : List PExpr → PExprList
  | [] => .nil
  | e :: es => .cons e (ofList es)

/-- A Python statement.  The notebook only ever uses the first four
constructors; the remaining ones are the statement forms Python offers for
mutation of non-local state, branching, loops and exception handling. -/
inductive PStmt where
  | importAs (modName asName : String)
  | assign (target : String) (rhs : PExpr)
  | assignPair (t1 t2 : String) (rhs : PExpr)
  | exprStmt (e : PExpr)
  | attrAssign (recv : PExpr) (field : String) (rhs : PExpr)
  | ifStmt (cond : PExpr) (thn els : List PStmt)
  | whileStmt (cond : PExpr) (body : List PStmt)
  | forStmt (v : String) (iter : PExpr) (body : List PStmt)
  | tryStmt (body handlers : List PStmt)
  | withStmt (ctx : PExpr) (body : List PStmt)

/-- A runtime value: a number, a string, or an opaque library object. -/
inductive PVal where
  | num (q : ℚ)
  | strv (s : String)
  | obj (tag : String)
deriving DecidableEq

/-- The notebook's local variables. -/
abbrev PEnv := List (String × PVal)

/-- The behaviour of the external libraries: a call key (function, method,
attribute or operator name) and arguments either return a value or raise an
exception (carried as the error message).  All library behaviour is abstract;
the notebook only sequences such calls. -/
abbrev LibOracle := String → List PVal → Except String PVal

/-- Name lookup among the local variables (latest binding wins). -/
def lookupEnv : PEnv → String → Option PVal
  | [], _ => none
  | (k, v) :: rest, n => if k = n then some v else lookupEnv rest n

mutual

/-- Evaluation of an expression: sub-expressions are evaluated left to right
and every external call goes through the library oracle; any raised exception
short-circuits the whole evaluation unchanged. -/
def evalExpr (lib : LibOracle) (env : PEnv) : PExpr → Except String PVal
  | .num q => .ok (.num q)
  | .strLit s => .ok (.strv s)
  | .var n =>
      match lookupEnv env n with
      | some v => .ok v
      | none => .error ("NameError: " ++ n)
  | .call fn args => do
      let vs ← evalArgs lib env args
      lib fn vs
  | .attr recv f => do
      let v ← evalExpr lib env recv
      lib ("attr:" ++ f) [v]
  | .method recv f args => do
      let v ← evalExpr lib env recv
      let vs ← evalArgs lib env args
      lib ("method:" ++ f) (v :: vs)
  | .binop op lhs rhs => do
      let a ← evalExpr lib env lhs
      let b ← evalExpr lib env rhs
      lib ("op:" ++ op) [a, b]
  | .getitem recv key => do
      let v ← evalExpr lib env recv
      let k ← evalExpr lib env key
      lib "getitem" [v, k]
  | .sliceUpto recv stop => do
      let v ← evalExpr lib env recv
      lib "sliceUpto" [v, .num (stop : ℚ)]
  | .listLit es => do
      let _ ← evalArgs lib env es
      .ok (.obj "list")
  | .tup es => do
      let _ ← evalArgs lib env es
      .ok (.obj "tuple")
  | .dict es => do
      let _ ← evalArgs lib env es
      .ok (.obj "dict")

/-- Evaluation of an argument list, left to right. -/
def evalArgs (lib : LibOracle) (env : PEnv) : PExprList → Except String (List PVal)
  | .nil => .ok []
  | .cons e rest => do
      let v ← evalExpr lib env e
      let vs ← evalArgs lib env rest
      .ok (v :: vs)

end

/-- Execution of one statement.  The four statement forms the notebook uses
only read the environment and, for assignments, prepend new local bindings;
the statement forms the notebook never uses are outside the model. -/
def runStmt (lib : LibOracle) (env : PEnv) : PStmt → Except String PEnv
  | .importAs m asn => .ok ((asn, .obj ("module:" ++ m)) :: env)
  | .assign t rhs => do
      let v ← evalExpr lib env rhs
      .ok ((t, v) :: env)
  | .assignPair t1 t2 rhs => do
      let v ← evalExpr lib env rhs
      let a ← lib "unpack0" [v]
      let b ← lib "unpack1" [v]
      .ok ((t2, b) :: (t1, a) :: env)
  | .exprStmt e => do
      let _ ← evalExpr lib env e
      .ok env
  | _ => .error "UnmodeledStatementForm"

/-- Sequential cell execution: statements run in order, and a raised exception
aborts the rest of the run, propagating unchanged. -/
def runProg (lib : LibOracle) (env : PEnv) : List PStmt → Except String PEnv
  | [] => .ok env
  | s :: rest => do
      let env2 ← runStmt lib env s
      runProg lib env2 rest

/-- The right-hand side of the notebook's
`diff_regridded = ds_regridded['NDVI_2017'] - ds_regridded['NDVI_1988']`. -/
def diffRegriddedRhs : PExpr :=
  .binop "-" (.getitem (.var "ds_regridded") (.strLit "NDVI_2017"))
    (.getitem (.var "ds_regridded") (.strLit "NDVI_1988"))

/-- The notebook's `diff_regridded = ...` assignment statement. -/
def diffRegriddedAssign : PStmt :=
  .assign "diff_regridded" diffRegriddedRhs

/-- The notebook's code cells transcribed statement by statement, in cell
execution order (the final cell holding only a comment contributes no
statement). -/
def notebookStmts : List PStmt := [
  .importAs "intake" "intake",
  .importAs "numpy" "np",
  .importAs "xarray" "xr",
  .importAs "holoviews" "hv",
  .importAs "cartopy.crs" "ccrs",
  .importAs "geoviews" "gv",
  .importAs "hvplot.xarray" "hvplot",
  .exprStmt (.method (.var "hv") "extension" (.ofList [.strLit "bokeh", .num 80])),
  .assign "cat" (.method (.var "intake") "open_catalog" (.ofList [.strLit "../catalog.yml"])),
  .assign "landsat_5_da" (.method (.attr (.var "cat") "landsat_5_small") "read_chunked" .nil),
  .assign "landsat_8_da" (.method (.attr (.var "cat") "landsat_8_small") "read_chunked" .nil),
  .exprStmt (.var "landsat_8_da"),
  .assign "NDVI_1988" (.binop "/"
    (.binop "-" (.method (.var "landsat_5_da") "sel" (.ofList [.num 4]))
      (.method (.var "landsat_5_da") "sel" (.ofList [.num 3])))
    (.binop "+" (.method (.var "landsat_5_da") "sel" (.ofList [.num 4]))
      (.method (.var "landsat_5_da") "sel" (.ofList [.num 3])))),
  .exprStmt (.var "NDVI_1988"),
  .assign "NDVI_2017" (.binop "/"
    (.binop "-" (.method (.var "landsat_8_da") "sel" (.ofList [.num 5]))
      (.method (.var "landsat_8_da") "sel" (.ofList [.num 4])))
    (.binop "+" (.method (.var "landsat_8_da") "sel" (.ofList [.num 5]))
      (.method (.var "landsat_8_da") "sel" (.ofList [.num 4])))),
  .exprStmt (.var "NDVI_2017"),
  .assign "diff" (.binop "-" (.var "NDVI_2017") (.var "NDVI_1988")),
  .exprStmt (.method (.attr (.var "diff") "hvplot") "image"
    (.ofList [.strLit "x", .strLit "y", .num 400, .strLit "coolwarm",
      .tup (.ofList [.num (-1), .num 1])])),
  .exprStmt (.attr (.var "diff") "shape"),
  .exprStmt (.call "print"
    (.ofList [.attr (.getitem (.attr (.var "NDVI_1988") "x") (.num 0)) "values"])),
  .exprStmt (.call "print"
    (.ofList [.attr (.getitem (.attr (.var "NDVI_2017") "x") (.num 0)) "values"])),
  .exprStmt (.call "print"
    (.ofList [.attr (.binop "-" (.getitem (.attr (.var "NDVI_1988") "x") (.num 1))
      (.getitem (.attr (.var "NDVI_1988") "x") (.num 0))) "values"])),
  .exprStmt (.call "print"
    (.ofList [.attr (.binop "-" (.getitem (.attr (.var "NDVI_2017") "x") (.num 1))
      (.getitem (.attr (.var "NDVI_2017") "x") (.num 0))) "values"])),
  .exprStmt (.attr (.var "landsat_8_da") "crs"),
  .assign "crs" (.method (.attr (.var "gv") "util") "proj_to_cartopy"
    (.ofList [.attr (.var "landsat_8_da") "crs"])),
  .assignPair "x_center" "y_center" (.method (.var "crs") "transform_point"
    (.ofList [.num (-118.7081), .num 38.6942, .method (.var "ccrs") "PlateCarree" .nil])),
  .assign "buffer" (.num 1.5e4),
  .assign "xmin" (.binop "-" (.var "x_center") (.var "buffer")),
  .assign "xmax" (.binop "+" (.var "x_center") (.var "buffer")),
  .assign "ymin" (.binop "-" (.var "y_center") (.var "buffer")),
  .assign "ymax" (.binop "+" (.var "y_center") (.var "buffer")),
  .assign "bounding_box" (.listLit (.ofList [.listLit (.ofList [
    .listLit (.ofList [.var "xmin", .var "ymin"]),
    .listLit (.ofList [.var "xmin", .var "ymax"]),
    .listLit (.ofList [.var "xmax", .var "ymax"]),
    .listLit (.ofList [.var "xmax", .var "ymin"])])])),
  .exprStmt (.binop "*" (.attr (.attr (.var "gv") "tile_sources") "EsriImagery")
    (.method (.method (.var "gv") "Polygons" (.ofList [.var "bounding_box", .var "crs"]))
      "options" (.ofList [.num 0.4]))),
  .assign "res" (.num 200),
  .assign "x" (.method (.var "np") "arange" (.ofList [.var "xmin", .var "xmax", .var "res"])),
  .assign "y" (.method (.var "np") "arange" (.ofList [.var "ymin", .var "ymax", .var "res"])),
  .exprStmt (.method (.var "NDVI_1988") "load" .nil),
  .exprStmt (.method (.var "NDVI_2017") "load" .nil),
  .assign "NDVI_2017_regridded" (.method (.var "NDVI_2017") "interp"
    (.ofList [.var "x", .var "y"])),
  .assign "NDVI_1988_regridded" (.method (.var "NDVI_1988") "interp"
    (.ofList [.var "x", .var "y"])),
  .assign "ds_regridded" (.method (.var "xr") "Dataset" (.ofList [.dict (.ofList
    [.strLit "NDVI_1988", .var "NDVI_1988_regridded",
     .strLit "NDVI_2017", .var "NDVI_2017_regridded"])])),
  .exprStmt (.var "ds_regridded"),
  .exprStmt (.binop "+"
    (.method (.method (.attr (.attr (.var "ds_regridded") "NDVI_1988") "hvplot") "image"
      (.ofList [.strLit "x", .strLit "y", .var "crs", .num 350,
        .tup (.ofList [.num (-3), .num 1])])) "relabel" (.ofList [.strLit "1988"]))
    (.method (.method (.attr (.attr (.var "ds_regridded") "NDVI_2017") "hvplot") "image"
      (.ofList [.strLit "x", .strLit "y", .var "crs", .num 350,
        .tup (.ofList [.num (-3), .num 1])])) "relabel" (.ofList [.strLit "2017"]))),
  diffRegriddedAssign,
  .exprStmt (.var "diff_regridded"),
  .exprStmt (.method (.attr (.var "diff_regridded") "hvplot") "image"
    (.ofList [.strLit "x", .strLit "y", .var "crs", .num 400, .strLit "coolwarm",
      .tup (.ofList [.num (-1), .num 1])])),
  .assign "res_1000" (.num 1e3),
  .assign "x_1000" (.method (.var "np") "arange"
    (.ofList [.var "xmin", .var "xmax", .var "res"])),
  .assign "y_1000" (.method (.var "np") "arange"
    (.ofList [.var "ymin", .var "ymax", .var "res"])),
  .assign "diff_res_1000" (.method (.method (.method (.method (.method
    (.var "diff_regridded")
    "groupby_bins" (.ofList [.strLit "x", .var "x_1000", .sliceUpto (.var "x") (-1)]))
    "mean" (.ofList [.strLit "x"]))
    "groupby_bins" (.ofList [.strLit "y", .var "y_1000", .sliceUpto (.var "y") (-1)]))
    "mean" (.ofList [.strLit "y"]))
    "rename" (.ofList [.strLit "x_bins", .strLit "x", .strLit "y_bins", .strLit "y"])),
  .exprStmt (.var "diff_res_1000")
]

/-- Check for a try/except statement. -/
def PStmt.isTry : PStmt → Bool
  | .tryStmt _ _ => true
  | _ => false

/-- Check that a statement is one of the straight-line forms the notebook
uses: an import, a (possibly pair) assignment to local variables, or a bare
expression statement.  Branching, loops, try/except, with-blocks and
attribute mutation all fail this check. -/
def PStmt.isStraightLine : PStmt → Bool
  | .importAs _ _ => true
  | .assign _ _ => true
  | .assignPair _ _ _ => true
  | .exprStmt _ => true
  | _ => false

mutual

/-- Check whether an expression contains a call of method `mname` whose
receiver is the variable `vname`. -/
def PExpr.usesMethodOn (mname vname : String) : PExpr → Bool
  | .method recv f args =>
      (f == mname && (match recv with | .var n => n == vname | _ => false))
        || recv.usesMethodOn mname vname || args.usesMethodOn mname vname
  | .attr recv _ => recv.usesMethodOn mname vname
  | .binop _ lhs rhs => lhs.usesMethodOn mname vname || rhs.usesMethodOn mname vname
  | .getitem recv key => recv.usesMethodOn mname vname || key.usesMethodOn mname vname
  | .sliceUpto recv _ => recv.usesMethodOn mname vname
  | .call _ args => args.usesMethodOn mname vname
  | .listLit es => es.usesMethodOn mname vname
  | .tup es => es.usesMethodOn mname vname
  | .dict es => es.usesMethodOn mname vname
  | _ => false

/-- Check over an expression list. -/
def PExprList.usesMethodOn (mname vname : String) : PExprList → Bool
  | .nil => false
  | .cons e rest => e.usesMethodOn mname vname || rest.usesMethodOn mname vname

end

/-- Check whether a straight-line statement contains a call of method `mname`
on the variable `vname`. -/
def PStmt.usesMethodOn (mname vname : String) : PStmt → Bool
  | .assign _ rhs => rhs.usesMethodOn mname vname
  | .assignPair _ _ rhs => rhs.usesMethodOn mname vname
  | .exprStmt e => e.usesMethodOn mname vname
  | .attrAssign recv _ rhs => recv.usesMethodOn mname vname || rhs.usesMethodOn mname vname
  | _ => false

/-- A library oracle for which opening the catalog raises (the catalog file is
missing) while every other call succeeds. -/
def libMissingCatalog : LibOracle := fun f _ =>
  if f = "method:open_catalog" then .error "FileNotFoundError: ../catalog.yml"
  else .ok (.obj f)

/-- A library oracle for which every call succeeds, returning an opaque object
tagged with the call key. -/
def libAllOk : LibOracle := fun f _ => .ok (.obj f)

/-- A tiny concrete multi-band raster used to instantiate general theorems:
one cell at coordinate (0, 0), band `b` holding the value `b`. -/
def mbSample : MultiBandArray where
  xs := [0]
  ys := [0]
  bvals := fun b _ _ => some (b : ℚ)

/-- A tiny concrete raster used to instantiate general theorems. -/
def daSample : DataArray where
  xs := [0]
  ys := [0]
  vals := fun _ _ => some 1

/-- A one-cell multi-band raster whose every band holds zero, so that the
band sum is zero at its pixel. -/
def mbZero : MultiBandArray where
  xs := [0]
  ys := [0]
  bvals := fun _ _ _ => some 0

/-!
Helper lemmas.
-/

theorem arange_length (s e st : ℚ) :
    (arange s e st).length = (⌈(e - s) / st⌉).toNat := by
  rw [arange, List.length_map, List.length_range]

theorem arange_getElem (s e st : ℚ) (i : ℕ) (h : i < (arange s e st).length) :
    (arange s e st)[i] = s + (i : ℚ) * st := by
  simp only [arange, List.getElem_map, List.getElem_range]

theorem arange_head (s e st : ℚ) (h : 0 < (arange s e st).length) :
    (arange s e st).head? = some s := by
  rw [List.head?_eq_getElem?, List.getElem?_eq_getElem h, arange_getElem]
  norm_num

theorem arange_mem (s e st : ℚ) (hst : 0 < st) (c : ℚ) (hc : c ∈ arange s e st) :
    s ≤ c ∧ c < e := by
  rw [arange] at hc
  obtain ⟨i, hi, rfl⟩ := List.mem_map.mp hc
  have hi2 : i < (⌈(e - s) / st⌉).toNat := List.mem_range.mp hi
  constructor
  · nlinarith [mul_nonneg (by positivity : (0 : ℚ) ≤ (i : ℚ)) hst.le]
  · have h1 : (i : ℤ) < ⌈(e - s) / st⌉ := Int.lt_toNat.mp hi2
    have h2 : ((i : ℤ) : ℚ) < (e - s) / st := Int.lt_ceil.mp h1
    have h3 : (i : ℚ) * st < e - s := by
      rw [lt_div_iff₀ hst] at h2
      push_cast at h2 ⊢
      linarith
    linarith

theorem grid_length (s : ℚ) :
    (arange (s - NB.buffer) (s + NB.buffer) NB.res).length = 150 := by
  rw [arange_length]
  have h : (s + NB.buffer - (s - NB.buffer)) / NB.res = (150 : ℚ) := by
    rw [NB.buffer, NB.res]
    ring_nf
  rw [h]
  simp

theorem x_length (xc : ℚ) : (NB.x xc).length = 150 := by
  simp only [NB.x, NB.xmin, NB.xmax]
  exact grid_length xc

theorem y_length (yc : ℚ) : (NB.y yc).length = 150 := by
  simp only [NB.y, NB.ymin, NB.ymax]
  exact grid_length yc

theorem x_1000_length (xc : ℚ) : (NB.x_1000 xc).length = 150 := by
  simp only [NB.x_1000, NB.xmin, NB.xmax]
  exact grid_length xc

theorem NDVI_1988_vals_eq (l5 : MultiBandArray) (cx cy n r : ℚ)
    (h4 : l5.bvals 4 cx cy = some n) (h3 : l5.bvals 3 cx cy = some r) :
    (NB.NDVI_1988 l5).vals cx cy = fdiv (n - r) (n + r) := by
  simp [NB.NDVI_1988, DataArray.div, DataArray.sub, DataArray.add, DataArray.binApply,
    MultiBandArray.sel, h4, h3]

theorem NDVI_2017_vals_eq (l8 : MultiBandArray) (cx cy n r : ℚ)
    (h5 : l8.bvals 5 cx cy = some n) (h4 : l8.bvals 4 cx cy = some r) :
    (NB.NDVI_2017 l8).vals cx cy = fdiv (n - r) (n + r) := by
  simp [NB.NDVI_2017, DataArray.div, DataArray.sub, DataArray.add, DataArray.binApply,
    MultiBandArray.sel, h5, h4]

theorem alignCoords_self (u : List ℚ) : alignCoords u u = u := by
  rw [alignCoords, List.filter_eq_self]
  intro a ha
  simpa using ha

theorem mergeCoords_self (u : List ℚ) : mergeCoords u u = u := by
  rw [mergeCoords]
  have h : u.filter (fun c => decide (c ∉ u)) = [] := by
    rw [List.filter_eq_nil_iff]
    intro a ha
    simpa using ha
  rw [h, List.append_nil]

theorem exceptBind_ok {α β : Type} (a : α) (f : α → Except String β) :
    (Except.ok a >>= f) = f a := rfl

theorem exceptBind_error {α β : Type} (e : String) (f : α → Except String β) :
    ((Except.error e : Except String α) >>= f) = Except.error e := rfl

theorem runProg_append (lib : LibOracle) (env : PEnv) (l1 l2 : List PStmt) :
    runProg lib env (l1 ++ l2) =
      match runProg lib env l1 with
      | .ok env2 => runProg lib env2 l2
      | .error e => .error e := by
  induction l1 generalizing env with
  | nil => simp [runProg]
  | cons s rest ih =>
    simp only [List.cons_append, runProg]
    cases runStmt lib env s with
    | ok env2 =>
      rw [exceptBind_ok, exceptBind_ok]
      exact ih env2
    | error e =>
      rw [exceptBind_error, exceptBind_error]

theorem arange_spacing (s e st : ℚ) (i : ℕ) (h : i + 1 < (arange s e st).length) :
    (arange s e st).get ⟨i + 1, h⟩ - (arange s e st).get ⟨i, Nat.lt_of_succ_lt h⟩ = st := by
  rw [List.get_eq_getElem, List.get_eq_getElem, arange_getElem, arange_getElem]
  push_cast
  ring

theorem fdiv_sum_zero (n r : ℚ) (h : n + r = 0) : fdiv (n - r) (n + r) = none := by
  rw [fdiv, if_pos h]

theorem fdiv_ndvi_value (n r : ℚ) (hpos : 0 < n + r) :
    fdiv (n - r) (n + r) = some ((n - r) / (n + r)) := by
  rw [fdiv, if_neg (ne_of_gt hpos)]

theorem ndvi_quot_bounds (n r : ℚ) (hn : 0 ≤ n) (hr : 0 ≤ r) (hpos : 0 < n + r) :
    -1 ≤ (n - r) / (n + r) ∧ (n - r) / (n + r) ≤ 1 := by
  constructor
  · rw [le_div_iff₀ hpos]
    linarith
  · rw [div_le_one hpos]
    linarith

/-- C3: the region of interest is the axis-aligned square derived from the
transformed centre point and the buffer distance: `xmin/xmax/ymin/ymax` are the
centre coordinate minus/plus `buffer = 1.5e4`, the box has side length exactly
`2 * buffer = 3e4` on each axis, is centred on the centre point, and its
corners are listed in the order (xmin,ymin), (xmin,ymax), (xmax,ymax),
(xmax,ymin). -/
theorem bounding_box_square : ∀ x_center y_center : ℚ,
    NB.xmin x_center = x_center - NB.buffer ∧
    NB.xmax x_center = x_center + NB.buffer ∧
    NB.ymin y_center = y_center - NB.buffer ∧
    NB.ymax y_center = y_center + NB.buffer ∧
    NB.buffer = 1.5e4 ∧
    NB.xmax x_center - NB.xmin x_center = 2 * NB.buffer ∧
    NB.ymax y_center - NB.ymin y_center = 2 * NB.buffer ∧
    2 * NB.buffer = 3e4 ∧
    (NB.xmin x_center + NB.xmax x_center) / 2 = x_center ∧
    (NB.ymin y_center + NB.ymax y_center) / 2 = y_center ∧
    NB.bounding_box x_center y_center =
      [[(NB.xmin x_center, NB.ymin y_center), (NB.xmin x_center, NB.ymax y_center),
        (NB.xmax x_center, NB.ymax y_center), (NB.xmax x_center, NB.ymin y_center)]] := by
  intro xc yc
  refine ⟨rfl, rfl, rfl, rfl, rfl, ?_, ?_, ?_, ?_, ?_, rfl⟩
  · rw [NB.xmax, NB.xmin]; ring
  · rw [NB.ymax, NB.ymin]; ring
  · rw [NB.buffer]; norm_num
  · rw [NB.xmax, NB.xmin]; ring
  · rw [NB.ymax, NB.ymin]; ring

/-- C4: the new grid is regular: the x coordinates start at `xmin` and the y
coordinates at `ymin`, consecutive coordinates differ by exactly `res = 200`,
and every coordinate lies in `[xmin, xmax)` resp. `[ymin, ymax)`, with no
coordinate at or beyond the upper bound included. -/
theorem grid_regular : ∀ x_center y_center : ℚ,
    (NB.x x_center).head? = some (NB.xmin x_center) ∧
    (NB.y y_center).head? = some (NB.ymin y_center) ∧
    (∀ (i : ℕ) (h : i + 1 < (NB.x x_center).length),
      (NB.x x_center).get ⟨i + 1, h⟩ - (NB.x x_center).get ⟨i, Nat.lt_of_succ_lt h⟩ = NB.res) ∧
    (∀ (i : ℕ) (h : i + 1 < (NB.y y_center).length),
      (NB.y y_center).get ⟨i + 1, h⟩ - (NB.y y_center).get ⟨i, Nat.lt_of_succ_lt h⟩ = NB.res) ∧
    (∀ c ∈ NB.x x_center, NB.xmin x_center ≤ c ∧ c < NB.xmax x_center) ∧
    (∀ c ∈ NB.y y_center, NB.ymin y_center ≤ c ∧ c < NB.ymax y_center) := by
  intro xc yc
  have hres : (0 : ℚ) < NB.res := by rw [NB.res]; norm_num
  have hx0 : 0 < (NB.x xc).length := by rw [x_length]; norm_num
  have hy0 : 0 < (NB.y yc).length := by rw [y_length]; norm_num
  refine ⟨?_, ?_, ?_, ?_, ?_, ?_⟩
  · exact arange_head _ _ _ hx0
  · exact arange_head _ _ _ hy0
  · intro i h
    exact arange_spacing _ _ _ i h
  · intro i h
    exact arange_spacing _ _ _ i h
  · intro c hc
    exact arange_mem _ _ _ hres c hc
  · intro c hc
    exact arange_mem _ _ _ hres c hc

theorem xlen_big : 0 + 1 < (NB.x (0 : ℚ)).length := by
  rw [x_length]; norm_num

/-- Witness for C4 at centre (0, 0): the first grid coordinate is `xmin`, the
first spacing is `res`, and the first coordinate lies in the half-open
interval. -/
theorem grid_regular_witness :
    (NB.x 0).head? = some (NB.xmin 0) ∧
    (NB.x 0).get ⟨0 + 1, xlen_big⟩ - (NB.x 0).get ⟨0, Nat.lt_of_succ_lt xlen_big⟩ = NB.res ∧
    (NB.xmin 0 ≤ NB.xmin 0 ∧ NB.xmin 0 < NB.xmax 0) := by
  have hx := grid_regular 0 0
  exact ⟨hx.1, hx.2.2.1 0 xlen_big,
    hx.2.2.2.2.1 (NB.xmin 0) (List.mem_of_mem_head? (Option.mem_def.mpr hx.1))⟩

/-- C2: the per-pixel vegetation index matches the reference NDVI definition
with each satellite's band numbering: wherever the bands hold values, the
`NDVI_1988` cell value is `(band4 - band3) / (band4 + band3)` of `landsat_5_da`
and the `NDVI_2017` cell value is `(band5 - band4) / (band5 + band4)` of
`landsat_8_da`. -/
theorem ndvi_band_arithmetic :
    ∀ (landsat_5_da landsat_8_da : MultiBandArray) (cx cy n5 r5 n8 r8 : ℚ),
    (landsat_5_da.bvals 4 cx cy = some n5 → landsat_5_da.bvals 3 cx cy = some r5 →
      (NB.NDVI_1988 landsat_5_da).vals cx cy = ndviSpec n5 r5) ∧
    (landsat_8_da.bvals 5 cx cy = some n8 → landsat_8_da.bvals 4 cx cy = some r8 →
      (NB.NDVI_2017 landsat_8_da).vals cx cy = ndviSpec n8 r8) := by
  intro l5 l8 cx cy n5 r5 n8 r8
  constructor
  · intro h4 h3
    rw [NDVI_1988_vals_eq l5 cx cy n5 r5 h4 h3]
    rfl
  · intro h5 h4
    rw [NDVI_2017_vals_eq l8 cx cy n8 r8 h5 h4]
    rfl

/-- Witness for C2 on a concrete one-cell raster whose band `b` holds value
`b`. -/
theorem ndvi_band_arithmetic_witness :
    (NB.NDVI_1988 mbSample).vals 0 0 = ndviSpec 4 3 ∧
    (NB.NDVI_2017 mbSample).vals 0 0 = ndviSpec 5 4 := by
  have h := ndvi_band_arithmetic mbSample mbSample 0 0 4 3 5 4
  exact ⟨h.1 rfl rfl, h.2 rfl rfl⟩

/-- C9 (implicit): the NDVI division is unguarded — where the band sum is zero
the cell value is the undefined (non-numeric) marker rather than an error —
and wherever both band values are non-negative with positive sum, the NDVI
value is the quotient `(NIR - Red) / (NIR + Red)` and lies in `[-1, 1]`. -/
theorem ndvi_division_unguarded_bounded :
    ∀ (landsat_5_da landsat_8_da : MultiBandArray) (cx cy n5 r5 n8 r8 : ℚ),
    (landsat_5_da.bvals 4 cx cy = some n5 → landsat_5_da.bvals 3 cx cy = some r5 →
      ((n5 + r5 = 0 → (NB.NDVI_1988 landsat_5_da).vals cx cy = none) ∧
       (0 ≤ n5 → 0 ≤ r5 → 0 < n5 + r5 →
         (NB.NDVI_1988 landsat_5_da).vals cx cy = some ((n5 - r5) / (n5 + r5)) ∧
         -1 ≤ (n5 - r5) / (n5 + r5) ∧ (n5 - r5) / (n5 + r5) ≤ 1))) ∧
    (landsat_8_da.bvals 5 cx cy = some n8 → landsat_8_da.bvals 4 cx cy = some r8 →
      ((n8 + r8 = 0 → (NB.NDVI_2017 landsat_8_da).vals cx cy = none) ∧
       (0 ≤ n8 → 0 ≤ r8 → 0 < n8 + r8 →
         (NB.NDVI_2017 landsat_8_da).vals cx cy = some ((n8 - r8) / (n8 + r8)) ∧
         -1 ≤ (n8 - r8) / (n8 + r8) ∧ (n8 - r8) / (n8 + r8) ≤ 1))) := by
  intro l5 l8 cx cy n5 r5 n8 r8
  constructor
  · intro h4 h3
    rw [NDVI_1988_vals_eq l5 cx cy n5 r5 h4 h3]
    constructor
    · intro hz
      exact fdiv_sum_zero n5 r5 hz
    · intro hn hr hpos
      obtain ⟨hb1, hb2⟩ := ndvi_quot_bounds n5 r5 hn hr hpos
      exact ⟨fdiv_ndvi_value n5 r5 hpos, hb1, hb2⟩
  · intro h5 h4
    rw [NDVI_2017_vals_eq l8 cx cy n8 r8 h5 h4]
    constructor
    · intro hz
      exact fdiv_sum_zero n8 r8 hz
    · intro hn hr hpos
      obtain ⟨hb1, hb2⟩ := ndvi_quot_bounds n8 r8 hn hr hpos
      exact ⟨fdiv_ndvi_value n8 r8 hpos, hb1, hb2⟩

/-- Witness for C9: on the all-zero raster the NDVI cell value is the
undefined marker, and on the sample raster (bands 4/3 holding 4 and 3) the
value is `1/7`, inside `[-1, 1]`. -/
theorem ndvi_division_unguarded_bounded_witness :
    (NB.NDVI_1988 mbZero).vals 0 0 = none ∧
    ((NB.NDVI_1988 mbSample).vals 0 0 = some ((4 - 3) / (4 + 3)) ∧
      -1 ≤ ((4 : ℚ) - 3) / (4 + 3) ∧ ((4 : ℚ) - 3) / (4 + 3) ≤ 1) := by
  have h0 := (ndvi_division_unguarded_bounded mbZero mbZero 0 0 0 0 0 0).1 rfl rfl
  have h1 := (ndvi_division_unguarded_bounded mbSample mbSample 0 0 4 3 5 4).1 rfl rfl
  exact ⟨h0.1 (by norm_num), h1.2 (by norm_num) (by norm_num) (by norm_num)⟩

/-- C1 (bug evidence): the notebook defines `res_1000 = 1e3` but builds the
bin edges with `np.arange(xmin, xmax, res)`, reusing `res = 200`: the edge
lists handed to the binned group-by are exactly the 200-spaced fine grid
coordinates, the first two x edges differ by 200, and 200 is not the stated
desired resolution 1000. -/
theorem resample_bin_edges_spacing :
    NB.res_1000 = 1000 ∧
    (∀ x_center : ℚ, NB.x_1000 x_center = NB.x x_center) ∧
    (∀ y_center : ℚ, NB.y_1000 y_center = NB.y y_center) ∧
    (NB.x_1000 0)[0]? = some (NB.xmin 0) ∧
    (NB.x_1000 0)[1]? = some (NB.xmin 0 + 200) ∧
    NB.xmin 0 + 200 - NB.xmin 0 = (200 : ℚ) ∧
    (200 : ℚ) ≠ NB.res_1000 := by
  have h0 : 0 < (NB.x_1000 0).length := by rw [x_1000_length]; norm_num
  have h1 : 1 < (NB.x_1000 0).length := by rw [x_1000_length]; norm_num
  refine ⟨by rw [NB.res_1000]; norm_num, fun xc => rfl, fun yc => rfl, ?_, ?_, by ring, ?_⟩
  · rw [List.getElem?_eq_getElem h0]
    congr 1
    refine (arange_getElem (NB.xmin 0) (NB.xmax 0) NB.res 0 h0).trans ?_
    push_cast
    ring
  · rw [List.getElem?_eq_getElem h1]
    congr 1
    refine (arange_getElem (NB.xmin 0) (NB.xmax 0) NB.res 1 h1).trans ?_
    rw [NB.res]
    push_cast
    ring
  · rw [NB.res_1000]
    norm_num

/-- C5: both datasets are interpolated onto the same shared grid: the two
regridded arrays carry exactly the `x` and `y` coordinate lists of the new
grid, have identical shape, the dataset built from them shares those
coordinates, and the difference `diff_regridded` is defined cellwise on every
cell of that full grid as the subtraction of the two regridded values. -/
theorem shared_grid_alignment :
    ∀ (landsat_5_da landsat_8_da : MultiBandArray) (x_center y_center : ℚ),
    (NB.NDVI_1988_regridded landsat_5_da x_center y_center).xs = NB.x x_center ∧
    (NB.NDVI_1988_regridded landsat_5_da x_center y_center).ys = NB.y y_center ∧
    (NB.NDVI_2017_regridded landsat_8_da x_center y_center).xs = NB.x x_center ∧
    (NB.NDVI_2017_regridded landsat_8_da x_center y_center).ys = NB.y y_center ∧
    (NB.NDVI_1988_regridded landsat_5_da x_center y_center).shape =
      (NB.NDVI_2017_regridded landsat_8_da x_center y_center).shape ∧
    (NB.ds_regridded landsat_5_da landsat_8_da x_center y_center).xs = NB.x x_center ∧
    (NB.ds_regridded landsat_5_da landsat_8_da x_center y_center).ys = NB.y y_center ∧
    (NB.diff_regridded landsat_5_da landsat_8_da x_center y_center).xs = NB.x x_center ∧
    (NB.diff_regridded landsat_5_da landsat_8_da x_center y_center).ys = NB.y y_center ∧
    (∀ cx cy : ℚ,
      (NB.diff_regridded landsat_5_da landsat_8_da x_center y_center).vals cx cy =
        ((NB.NDVI_2017_regridded landsat_8_da x_center y_center).vals cx cy).bind
          (fun v2 => ((NB.NDVI_1988_regridded landsat_5_da x_center y_center).vals cx cy).bind
            (fun v1 => some (v2 - v1)))) := by
  intro l5 l8 xc yc
  have hdsx : (NB.ds_regridded l5 l8 xc yc).xs = NB.x xc := mergeCoords_self _
  have hdsy : (NB.ds_regridded l5 l8 xc yc).ys = NB.y yc := mergeCoords_self _
  refine ⟨rfl, rfl, rfl, rfl, rfl, hdsx, hdsy, ?_, ?_, fun cx cy => rfl⟩
  · calc (NB.diff_regridded l5 l8 xc yc).xs
        = alignCoords (NB.ds_regridded l5 l8 xc yc).xs (NB.ds_regridded l5 l8 xc yc).xs := rfl
      _ = (NB.ds_regridded l5 l8 xc yc).xs := by
          rw [hdsx]
          exact alignCoords_self _
      _ = NB.x xc := hdsx
  · calc (NB.diff_regridded l5 l8 xc yc).ys
        = alignCoords (NB.ds_regridded l5 l8 xc yc).ys (NB.ds_regridded l5 l8 xc yc).ys := rfl
      _ = (NB.ds_regridded l5 l8 xc yc).ys := by
          rw [hdsy]
          exact alignCoords_self _
      _ = NB.y yc := hdsy

theorem runStmt_importAs (lib : LibOracle) (env : PEnv) (m asn : String) :
    runStmt lib env (.importAs m asn) = .ok ((asn, .obj ("module:" ++ m)) :: env) := rfl

theorem runStmt_assign (lib : LibOracle) (env : PEnv) (t : String) (rhs : PExpr) :
    runStmt lib env (.assign t rhs) =
      (evalExpr lib env rhs >>= fun v => .ok ((t, v) :: env)) := rfl

theorem runStmt_assignPair (lib : LibOracle) (env : PEnv) (t1 t2 : String) (rhs : PExpr) :
    runStmt lib env (.assignPair t1 t2 rhs) =
      (evalExpr lib env rhs >>= fun v =>
        lib "unpack0" [v] >>= fun a =>
          lib "unpack1" [v] >>= fun b => .ok ((t2, b) :: (t1, a) :: env)) := rfl

theorem runStmt_exprStmt (lib : LibOracle) (env : PEnv) (e : PExpr) :
    runStmt lib env (.exprStmt e) =
      (evalExpr lib env e >>= fun _ => .ok env) := rfl

/-- C6: no cell of the notebook catches, translates, or recovers from
exceptions — no try/except statement occurs anywhere in the transcription —
and any exception raised by an external-library call during a prefix of the
run propagates unchanged as the result of the whole run. -/
theorem no_error_handling_propagation :
    (∀ s ∈ notebookStmts, s.isTry = false) ∧
    (∀ (lib : LibOracle) (pre post : List PStmt) (e : String),
      notebookStmts = pre ++ post →
      runProg lib [] pre = .error e →
      runProg lib [] notebookStmts = .error e) := by
  constructor
  · decide
  · intro lib pre post e hsplit herr
    rw [hsplit, runProg_append, herr]

/-- Witness for C6: with a missing catalog file, `intake.open_catalog` raises
and the whole notebook run results in exactly that exception. -/
theorem no_error_handling_propagation_witness :
    runProg libMissingCatalog [] notebookStmts
      = .error "FileNotFoundError: ../catalog.yml" := by
  exact no_error_handling_propagation.2 libMissingCatalog (notebookStmts.take 9)
    (notebookStmts.drop 9) "FileNotFoundError: ../catalog.yml"
    (List.take_append_drop 9 notebookStmts).symm (by rfl)

/-- C7: every statement of the notebook is straight-line — an import, an
assignment to local variables, or a bare expression statement; none is a
conditional, loop, try/except, with-block or attribute mutation — and any
successfully executed notebook statement changes the interpreter state only by
prepending bindings of local variables, leaving all existing state in place. -/
theorem straight_line_no_branching :
    (notebookStmts.all PStmt.isStraightLine = true) ∧
    (∀ (lib : LibOracle) (env env2 : PEnv) (s : PStmt), s ∈ notebookStmts →
      runStmt lib env s = .ok env2 → ∃ bs, env2 = bs ++ env) := by
  constructor
  · decide
  · intro lib env env2 s _ hrun
    cases s with
    | importAs m asn =>
      rw [runStmt_importAs] at hrun
      injection hrun with h
      exact ⟨[(asn, .obj ("module:" ++ m))], h.symm⟩
    | assign t rhs =>
      rw [runStmt_assign] at hrun
      cases hv : evalExpr lib env rhs with
      | ok v =>
        rw [hv, exceptBind_ok] at hrun
        injection hrun with h
        exact ⟨[(t, v)], h.symm⟩
      | error e =>
        rw [hv, exceptBind_error] at hrun
        exact Except.noConfusion hrun
    | assignPair t1 t2 rhs =>
      rw [runStmt_assignPair] at hrun
      cases hv : evalExpr lib env rhs with
      | ok v =>
        rw [hv, exceptBind_ok] at hrun
        cases ha : lib "unpack0" [v] with
        | ok a =>
          rw [ha, exceptBind_ok] at hrun
          cases hb : lib "unpack1" [v] with
          | ok b =>
            rw [hb, exceptBind_ok] at hrun
            injection hrun with h
            exact ⟨[(t2, b), (t1, a)], h.symm⟩
          | error e =>
            rw [hb, exceptBind_error] at hrun
            exact Except.noConfusion hrun
        | error e =>
          rw [ha, exceptBind_error] at hrun
          exact Except.noConfusion hrun
      | error e =>
        rw [hv, exceptBind_error] at hrun
        exact Except.noConfusion hrun
    | exprStmt e =>
      rw [runStmt_exprStmt] at hrun
      cases hv : evalExpr lib env e with
      | ok v =>
        rw [hv, exceptBind_ok] at hrun
        injection hrun with h
        exact ⟨[], h.symm⟩
      | error err =>
        rw [hv, exceptBind_error] at hrun
        exact Except.noConfusion hrun
    | attrAssign recv f rhs => exact Except.noConfusion hrun
    | ifStmt c thn els => exact Except.noConfusion hrun
    | whileStmt c body => exact Except.noConfusion hrun
    | forStmt v iter body => exact Except.noConfusion hrun
    | tryStmt body handlers => exact Except.noConfusion hrun
    | withStmt ctx body => exact Except.noConfusion hrun

/-- Witness for C7: executing the first notebook statement from the empty
state only prepends the module binding. -/
theorem straight_line_no_branching_witness :
    ∃ bs, [("intake", PVal.obj "module:intake")] = bs ++ ([] : PEnv) := by
  exact straight_line_no_branching.2 libAllOk [] [("intake", PVal.obj "module:intake")]
    (.importAs "intake" "intake") (List.mem_cons_self _ _) (by rfl)

/-- C8: in cell-execution order the explicit materialize calls
`NDVI_1988.load()` and `NDVI_2017.load()` both precede every
`.interp(x=x, y=y)` call on those arrays — before any statement that
interpolates one of the two NDVI arrays, a statement calling `load` on that
same array has already run — and the two load statements are the only load
calls in the notebook. -/
theorem load_precedes_interp :
    (∀ (i : Fin notebookStmts.length) (v : String), v ∈ ["NDVI_1988", "NDVI_2017"] →
      (notebookStmts.get i).usesMethodOn "interp" v = true →
      ((notebookStmts.take i.val).any (fun s => s.usesMethodOn "load" v)) = true) ∧
    (notebookStmts.filter (fun s =>
      s.usesMethodOn "load" "NDVI_1988" || s.usesMethodOn "load" "NDVI_2017")).length = 2 := by
  constructor
  · decide
  · decide

/-- Witness for C8 at the statement `NDVI_2017_regridded = NDVI_2017.interp(x=x, y=y)`
(index 38): some earlier statement already called `NDVI_2017.load()`. -/
theorem load_precedes_interp_witness :
    ((notebookStmts.take 38).any (fun s => s.usesMethodOn "load" "NDVI_2017")) = true := by
  exact load_precedes_interp.1 ⟨38, by decide⟩ "NDVI_2017" (by decide) (by decide)

/-- C10 (implicit): grouping the two regridded arrays into the dataset stores
them unchanged — under shared coordinates the array read back under
`NDVI_1988` equals the first operand value for value, likewise `NDVI_2017` —
and executing `diff_regridded = ds_regridded['NDVI_2017'] - ds_regridded['NDVI_1988']`
only prepends the new `diff_regridded` binding, leaving the dataset binding
and every other local variable exactly as before. -/
theorem dataset_frame_effect :
    (∀ a b : DataArray, a.xs = b.xs → a.ys = b.ys →
      (((Dataset.ofTwo "NDVI_1988" a "NDVI_2017" b).getVar "NDVI_1988").xs = a.xs ∧
       ((Dataset.ofTwo "NDVI_1988" a "NDVI_2017" b).getVar "NDVI_1988").ys = a.ys ∧
       (∀ cx cy : ℚ,
         ((Dataset.ofTwo "NDVI_1988" a "NDVI_2017" b).getVar "NDVI_1988").vals cx cy
           = a.vals cx cy) ∧
       ((Dataset.ofTwo "NDVI_1988" a "NDVI_2017" b).getVar "NDVI_2017").xs = a.xs ∧
       ((Dataset.ofTwo "NDVI_1988" a "NDVI_2017" b).getVar "NDVI_2017").ys = a.ys ∧
       (∀ cx cy : ℚ,
         ((Dataset.ofTwo "NDVI_1988" a "NDVI_2017" b).getVar "NDVI_2017").vals cx cy
           = b.vals cx cy))) ∧
    (∀ (lib : LibOracle) (env : PEnv) (v : PVal),
      evalExpr lib env diffRegriddedRhs = .ok v →
      runStmt lib env diffRegriddedAssign = .ok (("diff_regridded", v) :: env)) ∧
    (∀ (env : PEnv) (v : PVal) (n : String), n ≠ "diff_regridded" →
      lookupEnv (("diff_regridded", v) :: env) n = lookupEnv env n) := by
  refine ⟨?_, ?_, ?_⟩
  · intro a b hx hy
    have hmx : mergeCoords a.xs b.xs = a.xs := by
      rw [← hx]
      exact mergeCoords_self _
    have hmy : mergeCoords a.ys b.ys = a.ys := by
      rw [← hy]
      exact mergeCoords_self _
    exact ⟨hmx, hmy, fun cx cy => rfl, hmx, hmy, fun cx cy => rfl⟩
  · intro lib env v hv
    rw [diffRegriddedAssign, runStmt_assign, hv, exceptBind_ok]
  · intro env v n hn
    show (if "diff_regridded" = n then some v else lookupEnv env n) = lookupEnv env n
    rw [if_neg (fun h => hn h.symm)]

/-- Witness for C10 on the one-cell sample raster and the all-succeeding
library oracle: the dataset stores the array unchanged, and running the
difference assignment from a one-variable state only prepends the new
binding. -/
theorem dataset_frame_effect_witness :
    ((Dataset.ofTwo "NDVI_1988" daSample "NDVI_2017" daSample).getVar "NDVI_1988").xs
      = daSample.xs ∧
    runStmt libAllOk [("ds_regridded", PVal.obj "ds")] diffRegriddedAssign
      = .ok [("diff_regridded", PVal.obj "op:-"), ("ds_regridded", PVal.obj "ds")] ∧
    lookupEnv [("diff_regridded", PVal.obj "op:-"), ("ds_regridded", PVal.obj "ds")]
      "ds_regridded" = lookupEnv [("ds_regridded", PVal.obj "ds")] "ds_regridded" := by
  refine ⟨(dataset_frame_effect.1 daSample daSample rfl rfl).1, ?_, ?_⟩
  · exact dataset_frame_effect.2.1 libAllOk [("ds_regridded", PVal.obj "ds")]
      (PVal.obj "op:-") (by rfl)
  · exact dataset_frame_effect.2.2 [("ds_regridded", PVal.obj "ds")] (PVal.obj "op:-")
      "ds_regridded" (by decide)
